import Mathlib

/-!
Shallow embedding of `src/fastapi_app.py` (Empress-MVP): a FastAPI gateway
exposing four POST endpoints that delegate to an external `rag_pipeline`
module, plus two static GET endpoints.  JSON values are modelled by an
inductive `Json`; Python dictionaries by association lists; Python
exceptions by `PyExc`; a pipeline function by a Lean function returning
`Except PyExc PipelineResult`.
-/

set_option autoImplicit false

namespace Empress

/-- JSON-like values exchanged at the HTTP boundary and returned by the
pipeline.  Documents inside `retrieved_documents` are opaque; they are
representable as arbitrary `Json` values. -/
inductive Json where
  | str : String → Json
  | num : Nat → Json
  | arr : List Json → Json
  | obj : List (String × Json) → Json

/-- Python exceptions that can cross the endpoint boundary: `KeyError` from
`result[k]` on a missing key, `TypeError` from `len` on a non-sized value,
pydantic validation failure, `fastapi.HTTPException`, and any other
exception the pipeline may raise. -/
inductive PyExc where
  | keyError (key : String)
  | typeError (msg : String)
  | validationError (msg : String)
  | httpExc (status : Nat) (detail : String)
  | other (msg : String)
deriving DecidableEq

/-- Python `str(e)` on an exception.  `str(KeyError(k))` is the `repr` of the
key, i.e. the key wrapped in single quotes; `str(HTTPException(s, d))` is
`"s: d"`. -/
def strOfExc : PyExc → String
  | .keyError k => "\x27" ++ k ++ "\x27"
  | .typeError m => m
  | .validationError m => m
  | .httpExc s d => toString s ++ ": " ++ d
  | .other m => m

/-- A pipeline result: the Python `dict` returned by a `rag_pipeline`
function, as an association list (first binding wins on lookup, as a Python
dict has unique keys). -/
abbrev PipelineResult : Type := List (String × Json)

/-- First-match association-list lookup: Python `d.get(k)` / `k in d`. -/
def dictFind (k : String) : List (String × Json) → Option Json
  | [] => none
  | (k', v) :: rest => if k' = k then some v else dictFind k rest

/-- Python `result[k]`: the value, or `KeyError` when absent. -/
def getItem (result : PipelineResult) (k : String) : Except PyExc Json :=
  match dictFind k result with
  | some v => .ok v
  | none => .error (.keyError k)

/-- Python `result.get(k, default)`. -/
def dictGet (result : PipelineResult) (k : String) (default : Json) : Json :=
  match dictFind k result with
  | some v => v
  | none => default

/-- Python `len` on a JSON value: defined on strings, lists and dicts,
a `TypeError` on numbers. -/
def pyLen : Json → Except PyExc Nat
  | .str s => .ok s.length
  | .num _ => .error (.typeError "object of type int has no len()")
  | .arr l => .ok l.length
  | .obj l => .ok l.length

/-- Pydantic coercion of a value into a `str` field: accepts a JSON string,
rejects anything else with a validation error. -/
def asStr : Json → Except PyExc String
  | .str s => .ok s
  | _ => .error (.validationError "str type expected")

/-- Pydantic coercion of a list of JSON values into `List[str]`. -/
def asStrElems : List Json → Except PyExc (List String)
  | [] => .ok []
  | .str s :: rest =>
    match asStrElems rest with
    | .ok l => .ok (s :: l)
    | .error e => .error e
  | _ :: _ => .error (.validationError "str type expected")

/-- Pydantic coercion of a value into a `List[str]` field. -/
def asStrList : Json → Except PyExc (List String)
  | .arr l => asStrElems l
  | _ => .error (.validationError "value is not a valid list")

/-! Request schemas (`pydantic` request models from the source). -/

/-- `class QARequest(BaseModel): query: str`. -/
structure QARequest where
  query : String
deriving DecidableEq

/-- `class DoctorMatchingRequest(BaseModel): symptoms: str`. -/
structure DoctorMatchingRequest where
  symptoms : String
deriving DecidableEq

/-- `class AffirmationRequest(BaseModel): categories: List[str]`. -/
structure AffirmationRequest where
  categories : List String
deriving DecidableEq

/-- `class ProductRecommendationRequest(BaseModel): user_input: str`. -/
structure ProductRecommendationRequest where
  user_input : String
deriving DecidableEq

/-! Response schemas (`pydantic` response models from the source). -/

/-- `class QAResponse(BaseModel)`. -/
structure QAResponse where
  response : String
  retrieved_documents_count : Nat
deriving DecidableEq

/-- `class DoctorMatchingResponse(BaseModel)`. -/
structure DoctorMatchingResponse where
  response : String
  retrieved_documents_count : Nat
deriving DecidableEq

/-- `class AffirmationResponse(BaseModel)`. -/
structure AffirmationResponse where
  response : String
  affirmations : List String
  retrieved_documents_count : Nat
deriving DecidableEq

/-- `class ProductRecommendationResponse(BaseModel)`. -/
structure ProductRecommendationResponse where
  response : String
  products : List String
  retrieved_documents_count : Nat
deriving DecidableEq

/-- JSON serialization of `QAResponse`, as FastAPI serializes the
`response_model`: the declared fields, in declaration order, and nothing
else. -/
def QAResponse.toJson (r : QAResponse) : Json :=
  .obj [("response", .str r.response),
        ("retrieved_documents_count", .num r.retrieved_documents_count)]

/-- JSON serialization of `DoctorMatchingResponse`. -/
def DoctorMatchingResponse.toJson (r : DoctorMatchingResponse) : Json :=
  .obj [("response", .str r.response),
        ("retrieved_documents_count", .num r.retrieved_documents_count)]

/-- JSON serialization of `AffirmationResponse`. -/
def AffirmationResponse.toJson (r : AffirmationResponse) : Json :=
  .obj [("response", .str r.response),
        ("affirmations", .arr (r.affirmations.map Json.str)),
        ("retrieved_documents_count", .num r.retrieved_documents_count)]

/-- JSON serialization of `ProductRecommendationResponse`. -/
def ProductRecommendationResponse.toJson (r : ProductRecommendationResponse) : Json :=
  .obj [("response", .str r.response),
        ("products", .arr (r.products.map Json.str)),
        ("retrieved_documents_count", .num r.retrieved_documents_count)]

/-- An HTTP response of the gateway: a status code and a JSON body. -/
structure HTTPResponse where
  status : Nat
  body : Json

/-- FastAPI turns a raised `HTTPException(status_code, detail)` into a
response with that status and body `{"detail": detail}`. -/
def httpErrorResponse (status : Nat) (detail : String) : HTTPResponse :=
  ⟨status, .obj [("detail", .str detail)]⟩

/-! The bodies of the four `try` blocks: reading the pipeline result and
constructing the response model.  Python evaluates the keyword arguments in
order — `result["response"]`, (`result.get(...)`,) `len(result["retrieved_documents"])`
— and only then runs pydantic validation of the field values. -/

/-- Construction of `QAResponse` from the pipeline result inside the `/qa`
`try` block (source lines 88–91). -/
def qa_build (result : PipelineResult) : Except PyExc QAResponse :=
  match getItem result "response" with
  | .error e => .error e
  | .ok respV =>
    match getItem result "retrieved_documents" with
    | .error e => .error e
    | .ok docsV =>
      match pyLen docsV with
      | .error e => .error e
      | .ok count =>
        match asStr respV with
        | .error e => .error e
        | .ok resp => .ok ⟨resp, count⟩

/-- Construction of `DoctorMatchingResponse` inside the `/doctor-matching`
`try` block (source lines 102–105). -/
def doctor_matching_build (result : PipelineResult) : Except PyExc DoctorMatchingResponse :=
  match getItem result "response" with
  | .error e => .error e
  | .ok respV =>
    match getItem result "retrieved_documents" with
    | .error e => .error e
    | .ok docsV =>
      match pyLen docsV with
      | .error e => .error e
      | .ok count =>
        match asStr respV with
        | .error e => .error e
        | .ok resp => .ok ⟨resp, count⟩

/-- Construction of `AffirmationResponse` inside the `/affirmations` `try`
block (source lines 116–120): `affirmations` is read with
`result.get("affirmations", [])`. -/
def affirmations_build (result : PipelineResult) : Except PyExc AffirmationResponse :=
  match getItem result "response" with
  | .error e => .error e
  | .ok respV =>
    let affV := dictGet result "affirmations" (.arr [])
    match getItem result "retrieved_documents" with
    | .error e => .error e
    | .ok docsV =>
      match pyLen docsV with
      | .error e => .error e
      | .ok count =>
        match asStr respV with
        | .error e => .error e
        | .ok resp =>
          match asStrList affV with
          | .error e => .error e
          | .ok affs => .ok ⟨resp, affs, count⟩

/-- Construction of `ProductRecommendationResponse` inside the
`/product-recommendations` `try` block (source lines 131–135): `products`
is read with `result.get("products", [])`. -/
def product_recommendations_build (result : PipelineResult) : Except PyExc ProductRecommendationResponse :=
  match getItem result "response" with
  | .error e => .error e
  | .ok respV =>
    let prodV := dictGet result "products" (.arr [])
    match getItem result "retrieved_documents" with
    | .error e => .error e
    | .ok docsV =>
      match pyLen docsV with
      | .error e => .error e
      | .ok count =>
        match asStr respV with
        | .error e => .error e
        | .ok resp =>
          match asStrList prodV with
          | .error e => .error e
          | .ok prods => .ok ⟨resp, prods, count⟩

/-! The endpoint handlers.  Each models the whole `try`/`except` of the
source: the pipeline call and the response construction are both inside the
`try`; `except Exception as e` catches every exception (including an
`HTTPException` the pipeline itself raised) and re-raises
`HTTPException(status_code=500, detail=prefixed message)`. -/

/-- Everything that runs inside the `try` block of `qa_endpoint`. -/
def qa_try (chatbot_qa : String → Except PyExc PipelineResult) (query : String) :
    Except PyExc QAResponse :=
  match chatbot_qa query with
  | .error e => .error e
  | .ok result => qa_build result

/-- `POST /qa` handler (source lines 81–93), parameterised by the external
pipeline function `chatbot_qa`. -/
def qa_endpoint (chatbot_qa : String → Except PyExc PipelineResult)
    (request : QARequest) : HTTPResponse :=
  match qa_try chatbot_qa request.query with
  | .ok r => ⟨200, r.toJson⟩
  | .error e => httpErrorResponse 500 ("Error processing Q&A request: " ++ strOfExc e)

/-- Everything that runs inside the `try` block of `doctor_matching_endpoint`. -/
def doctor_matching_try (doctor_symptoms_matching : String → Except PyExc PipelineResult)
    (symptoms : String) : Except PyExc DoctorMatchingResponse :=
  match doctor_symptoms_matching symptoms with
  | .error e => .error e
  | .ok result => doctor_matching_build result

/-- `POST /doctor-matching` handler (source lines 95–107). -/
def doctor_matching_endpoint (doctor_symptoms_matching : String → Except PyExc PipelineResult)
    (request : DoctorMatchingRequest) : HTTPResponse :=
  match doctor_matching_try doctor_symptoms_matching request.symptoms with
  | .ok r => ⟨200, r.toJson⟩
  | .error e =>
    httpErrorResponse 500 ("Error processing doctor matching request: " ++ strOfExc e)

/-- Everything that runs inside the `try` block of `affirmations_endpoint`. -/
def affirmations_try (affirmation_recommendation : List String → Except PyExc PipelineResult)
    (categories : List String) : Except PyExc AffirmationResponse :=
  match affirmation_recommendation categories with
  | .error e => .error e
  | .ok result => affirmations_build result

/-- `POST /affirmations` handler (source lines 109–122). -/
def affirmations_endpoint (affirmation_recommendation : List String → Except PyExc PipelineResult)
    (request : AffirmationRequest) : HTTPResponse :=
  match affirmations_try affirmation_recommendation request.categories with
  | .ok r => ⟨200, r.toJson⟩
  | .error e =>
    httpErrorResponse 500 ("Error processing affirmation request: " ++ strOfExc e)

/-- Everything that runs inside the `try` block of `product_recommendations_endpoint`. -/
def product_recommendations_try (product_recommendation : String → Except PyExc PipelineResult)
    (user_input : String) : Except PyExc ProductRecommendationResponse :=
  match product_recommendation user_input with
  | .error e => .error e
  | .ok result => product_recommendations_build result

/-- `POST /product-recommendations` handler (source lines 124–137). -/
def product_recommendations_endpoint (product_recommendation : String → Except PyExc PipelineResult)
    (request : ProductRecommendationRequest) : HTTPResponse :=
  match product_recommendations_try product_recommendation request.user_input with
  | .ok r => ⟨200, r.toJson⟩
  | .error e =>
    httpErrorResponse 500 ("Error processing product recommendation request: " ++ strOfExc e)

/-- `GET /` handler (source lines 68–79): a static body. -/
def root : HTTPResponse :=
  ⟨200, .obj [
    ("message", .str "Welcome to the Empress RAG API"),
    ("endpoints", .obj [
      ("/qa", .str "Q&A Chatbot - answers questions based on the knowledge base"),
      ("/doctor-matching", .str "Doctor Symptoms Matching - matches symptoms to doctors"),
      ("/affirmations", .str "Affirmation Recommendation - suggests affirmations based on categories"),
      ("/product-recommendations", .str "Product Recommendation - recommends products based on user input")])]⟩

/-- `GET /health` handler (source lines 140–143): a static body, no
dependence on any pipeline state. -/
def health_check : HTTPResponse :=
  ⟨200, .obj [("status", .str "healthy"), ("message", .str "Empress RAG API is running")]⟩

/-! Request validation and routing.  The validation machinery itself lives in
FastAPI/pydantic, outside this repository's source; it is modelled from the
spec's validation policy. -/

/-- Modelled from the spec: FastAPI/pydantic structural validation of a
`POST /qa` body against `QARequest` (field presence and type), performed by
the framework before the handler runs; extra keys are ignored. -/
def validate_qa_request (body : Json) : Except PyExc QARequest :=
  match body with
  | .obj fields =>
    match dictFind "query" fields with
    | some v =>
      match asStr v with
      | .ok s => .ok ⟨s⟩
      | .error e => .error e
    | none => .error (.validationError "query: field required")
  | _ => .error (.validationError "body: value is not a valid dict")

/-- Modelled from the spec: structural validation of a `POST /doctor-matching`
body against `DoctorMatchingRequest`. -/
def validate_doctor_matching_request (body : Json) : Except PyExc DoctorMatchingRequest :=
  match body with
  | .obj fields =>
    match dictFind "symptoms" fields with
    | some v =>
      match asStr v with
      | .ok s => .ok ⟨s⟩
      | .error e => .error e
    | none => .error (.validationError "symptoms: field required")
  | _ => .error (.validationError "body: value is not a valid dict")

/-- Modelled from the spec: structural validation of a `POST /affirmations`
body against `AffirmationRequest`. -/
def validate_affirmation_request (body : Json) : Except PyExc AffirmationRequest :=
  match body with
  | .obj fields =>
    match dictFind "categories" fields with
    | some v =>
      match asStrList v with
      | .ok l => .ok ⟨l⟩
      | .error e => .error e
    | none => .error (.validationError "categories: field required")
  | _ => .error (.validationError "body: value is not a valid dict")

/-- Modelled from the spec: structural validation of a
`POST /product-recommendations` body against `ProductRecommendationRequest`. -/
def validate_product_recommendation_request (body : Json) :
    Except PyExc ProductRecommendationRequest :=
  match body with
  | .obj fields =>
    match dictFind "user_input" fields with
    | some v =>
      match asStr v with
      | .ok s => .ok ⟨s⟩
      | .error e => .error e
    | none => .error (.validationError "user_input: field required")
  | _ => .error (.validationError "body: value is not a valid dict")

/-- Modelled from the spec: the framework route for `POST /qa` — a
structurally invalid body is rejected with HTTP 422 before any pipeline
call; a valid body is handed to the handler. -/
def qa_route (chatbot_qa : String → Except PyExc PipelineResult) (body : Json) : HTTPResponse :=
  match validate_qa_request body with
  | .error e => httpErrorResponse 422 (strOfExc e)
  | .ok req => qa_endpoint chatbot_qa req

/-- Modelled from the spec: the framework route for `POST /doctor-matching`. -/
def doctor_matching_route (doctor_symptoms_matching : String → Except PyExc PipelineResult)
    (body : Json) : HTTPResponse :=
  match validate_doctor_matching_request body with
  | .error e => httpErrorResponse 422 (strOfExc e)
  | .ok req => doctor_matching_endpoint doctor_symptoms_matching req

/-- Modelled from the spec: the framework route for `POST /affirmations`. -/
def affirmations_route (affirmation_recommendation : List String → Except PyExc PipelineResult)
    (body : Json) : HTTPResponse :=
  match validate_affirmation_request body with
  | .error e => httpErrorResponse 422 (strOfExc e)
  | .ok req => affirmations_endpoint affirmation_recommendation req

/-- Modelled from the spec: the framework route for
`POST /product-recommendations`. -/
def product_recommendations_route (product_recommendation : String → Except PyExc PipelineResult)
    (body : Json) : HTTPResponse :=
  match validate_product_recommendation_request body with
  | .error e => httpErrorResponse 422 (strOfExc e)
  | .ok req => product_recommendations_endpoint product_recommendation req

/-! Observation helpers on JSON bodies, used to state the claims. -/

/-- The keys of a JSON object, in order (`[]` on a non-object). -/
def Json.objKeys : Json → List String
  | .obj l => l.map Prod.fst
  | _ => []

/-- Lookup of a field of a JSON object (`none` on a non-object). -/
def Json.objLookup (j : Json) (k : String) : Option Json :=
  match j with
  | .obj l => dictFind k l
  | _ => none

/-- Whether every value of a JSON object is a non-empty string. -/
def Json.allNonemptyStr : Json → Bool
  | .obj l => l.all fun p =>
      match p.2 with
      | .str s => !(s == "")
      | _ => false
  | _ => false

/-- The `detail` string of an error response body, when present. -/
def HTTPResponse.detail (r : HTTPResponse) : Option String :=
  match r.body.objLookup "detail" with
  | some (.str s) => some s
  | _ => none

/-- The characters of `a` are an initial segment of those of `a ++ b`. -/
theorem data_isInitialOf_append (a b : String) : a.data <+: (a ++ b).data :=
  ⟨b.data, (String.data_append a b).symm⟩

/-- The characters of `b` occur inside those of `a ++ b`. -/
theorem data_isInsideOf_append (a b : String) : b.data <:+: (a ++ b).data :=
  ⟨a.data, [], by simp [String.data_append]⟩

/-- The `detail` of an error response built by `httpErrorResponse`. -/
theorem detail_httpErrorResponse (s : Nat) (d : String) :
    (httpErrorResponse s d).detail = some d := by
  simp [httpErrorResponse, HTTPResponse.detail, Json.objLookup, dictFind]

end Empress

namespace Empress

/-- C6: `GET /` always succeeds (status 200) with a static body whose
`endpoints` object lists exactly the four documented endpoint paths, each
mapped to a non-empty string description. -/
theorem root_lists_exactly_four_endpoints :
    root.status = 200 ∧
    (Json.objLookup root.body "endpoints").map Json.objKeys =
      some ["/qa", "/doctor-matching", "/affirmations", "/product-recommendations"] ∧
    (Json.objLookup root.body "endpoints").map Json.allNonemptyStr = some true := by
  refine ⟨rfl, rfl, ?_⟩
  decide

/-- C7: `GET /health` always returns status 200 with `status = "healthy"`
and a message; `health_check` is a closed total constant, so it depends on
no pipeline state and never fails. -/
theorem health_check_static_healthy :
    health_check.status = 200 ∧
    Json.objLookup health_check.body "status" = some (.str "healthy") ∧
    ∃ m, Json.objLookup health_check.body "message" = some (.str m) ∧ m ≠ "" := by
  refine ⟨rfl, rfl, "Empress RAG API is running", rfl, ?_⟩
  decide

/-- C2: for each of the four POST endpoints, a fault raised by the pipeline
call yields exactly the 500 response whose `detail` is the endpoint's fixed
prefix followed by the fault's description; in particular the detail starts
with the prefix and contains the description, and no fault escapes the
handler. -/
theorem pipeline_fault_yields_500_prefixed_detail :
    (∀ pipe req e, pipe (QARequest.query req) = .error e →
      qa_endpoint pipe req =
        httpErrorResponse 500 ("Error processing Q&A request: " ++ strOfExc e) ∧
      ∃ d, (qa_endpoint pipe req).detail = some d ∧
        "Error processing Q&A request: ".data <+: d.data ∧ (strOfExc e).data <:+: d.data) ∧
    (∀ pipe req e, pipe (DoctorMatchingRequest.symptoms req) = .error e →
      doctor_matching_endpoint pipe req =
        httpErrorResponse 500 ("Error processing doctor matching request: " ++ strOfExc e) ∧
      ∃ d, (doctor_matching_endpoint pipe req).detail = some d ∧
        "Error processing doctor matching request: ".data <+: d.data ∧
        (strOfExc e).data <:+: d.data) ∧
    (∀ pipe req e, pipe (AffirmationRequest.categories req) = .error e →
      affirmations_endpoint pipe req =
        httpErrorResponse 500 ("Error processing affirmation request: " ++ strOfExc e) ∧
      ∃ d, (affirmations_endpoint pipe req).detail = some d ∧
        "Error processing affirmation request: ".data <+: d.data ∧
        (strOfExc e).data <:+: d.data) ∧
    (∀ pipe req e, pipe (ProductRecommendationRequest.user_input req) = .error e →
      product_recommendations_endpoint pipe req =
        httpErrorResponse 500 ("Error processing product recommendation request: " ++ strOfExc e) ∧
      ∃ d, (product_recommendations_endpoint pipe req).detail = some d ∧
        "Error processing product recommendation request: ".data <+: d.data ∧
        (strOfExc e).data <:+: d.data) := by
  refine ⟨?_, ?_, ?_, ?_⟩
  · intro pipe req e h
    have he : qa_endpoint pipe req =
        httpErrorResponse 500 ("Error processing Q&A request: " ++ strOfExc e) := by
      simp [qa_endpoint, qa_try, h]
    exact ⟨he, _, by rw [he, detail_httpErrorResponse],
      data_isInitialOf_append _ _, data_isInsideOf_append _ _⟩
  · intro pipe req e h
    have he : doctor_matching_endpoint pipe req =
        httpErrorResponse 500 ("Error processing doctor matching request: " ++ strOfExc e) := by
      simp [doctor_matching_endpoint, doctor_matching_try, h]
    exact ⟨he, _, by rw [he, detail_httpErrorResponse],
      data_isInitialOf_append _ _, data_isInsideOf_append _ _⟩
  · intro pipe req e h
    have he : affirmations_endpoint pipe req =
        httpErrorResponse 500 ("Error processing affirmation request: " ++ strOfExc e) := by
      simp [affirmations_endpoint, affirmations_try, h]
    exact ⟨he, _, by rw [he, detail_httpErrorResponse],
      data_isInitialOf_append _ _, data_isInsideOf_append _ _⟩
  · intro pipe req e h
    have he : product_recommendations_endpoint pipe req =
        httpErrorResponse 500 ("Error processing product recommendation request: " ++ strOfExc e) := by
      simp [product_recommendations_endpoint, product_recommendations_try, h]
    exact ⟨he, _, by rw [he, detail_httpErrorResponse],
      data_isInitialOf_append _ _, data_isInsideOf_append _ _⟩

/-- C2 witness: a concrete pipeline fault with description `boom` against
`POST /qa` produces the 500 response with the prefixed detail. -/
theorem pipeline_fault_yields_500_prefixed_detail_witness :
    qa_endpoint (fun _ => .error (.other "boom")) ⟨"q"⟩ =
      httpErrorResponse 500 ("Error processing Q&A request: " ++ strOfExc (.other "boom")) ∧
    ∃ d, (qa_endpoint (fun _ => .error (.other "boom")) ⟨"q"⟩).detail = some d ∧
      "Error processing Q&A request: ".data <+: d.data ∧
      (strOfExc (.other "boom")).data <:+: d.data :=
  pipeline_fault_yields_500_prefixed_detail.1 (fun _ => .error (.other "boom")) ⟨"q"⟩
    (.other "boom") rfl

/-- C8: an `HTTPException` the pipeline itself raises — with any status code
`c`, even a non-500 one — is caught by the blanket `except Exception` and
re-reported as HTTP 500 with the endpoint's prefix, for all four POST
endpoints; the pipeline can never force a different fault status. -/
theorem pipeline_http_exception_rereported_as_500 :
    (∀ pipe req c d, pipe (QARequest.query req) = .error (.httpExc c d) →
      (qa_endpoint pipe req).status = 500 ∧
      (qa_endpoint pipe req).detail =
        some ("Error processing Q&A request: " ++ strOfExc (.httpExc c d))) ∧
    (∀ pipe req c d, pipe (DoctorMatchingRequest.symptoms req) = .error (.httpExc c d) →
      (doctor_matching_endpoint pipe req).status = 500 ∧
      (doctor_matching_endpoint pipe req).detail =
        some ("Error processing doctor matching request: " ++ strOfExc (.httpExc c d))) ∧
    (∀ pipe req c d, pipe (AffirmationRequest.categories req) = .error (.httpExc c d) →
      (affirmations_endpoint pipe req).status = 500 ∧
      (affirmations_endpoint pipe req).detail =
        some ("Error processing affirmation request: " ++ strOfExc (.httpExc c d))) ∧
    (∀ pipe req c d, pipe (ProductRecommendationRequest.user_input req) = .error (.httpExc c d) →
      (product_recommendations_endpoint pipe req).status = 500 ∧
      (product_recommendations_endpoint pipe req).detail =
        some ("Error processing product recommendation request: " ++ strOfExc (.httpExc c d))) := by
  refine ⟨?_, ?_, ?_, ?_⟩ <;>
  · intro pipe req c d h
    constructor
    · simp [qa_endpoint, qa_try, doctor_matching_endpoint, doctor_matching_try,
        affirmations_endpoint, affirmations_try, product_recommendations_endpoint,
        product_recommendations_try, h, httpErrorResponse]
    · simp [qa_endpoint, qa_try, doctor_matching_endpoint, doctor_matching_try,
        affirmations_endpoint, affirmations_try, product_recommendations_endpoint,
        product_recommendations_try, h, detail_httpErrorResponse]

/-- When `qa_build` succeeds on a result whose `retrieved_documents` is the
list `ds`, the constructed count is `ds.length`. -/
theorem qa_build_count (res : PipelineResult) (r : QAResponse) (ds : List Json)
    (hd : dictFind "retrieved_documents" res = some (.arr ds))
    (hb : qa_build res = .ok r) : r.retrieved_documents_count = ds.length := by
  cases hresp : dictFind "response" res with
  | none => simp [qa_build, getItem, hresp] at hb
  | some respV =>
    simp only [qa_build, getItem, hresp, hd, pyLen] at hb
    cases hstr : asStr respV with
    | error e => rw [hstr] at hb; simp at hb
    | ok s => rw [hstr] at hb; cases hb; rfl

/-- When `doctor_matching_build` succeeds on a result whose
`retrieved_documents` is `ds`, the constructed count is `ds.length`. -/
theorem doctor_matching_build_count (res : PipelineResult) (r : DoctorMatchingResponse)
    (ds : List Json) (hd : dictFind "retrieved_documents" res = some (.arr ds))
    (hb : doctor_matching_build res = .ok r) : r.retrieved_documents_count = ds.length := by
  cases hresp : dictFind "response" res with
  | none => simp [doctor_matching_build, getItem, hresp] at hb
  | some respV =>
    simp only [doctor_matching_build, getItem, hresp, hd, pyLen] at hb
    cases hstr : asStr respV with
    | error e => rw [hstr] at hb; simp at hb
    | ok s => rw [hstr] at hb; cases hb; rfl

/-- When `affirmations_build` succeeds on a result whose
`retrieved_documents` is `ds`, the constructed count is `ds.length`. -/
theorem affirmations_build_count (res : PipelineResult) (r : AffirmationResponse)
    (ds : List Json) (hd : dictFind "retrieved_documents" res = some (.arr ds))
    (hb : affirmations_build res = .ok r) : r.retrieved_documents_count = ds.length := by
  cases hresp : dictFind "response" res with
  | none => simp [affirmations_build, getItem, hresp] at hb
  | some respV =>
    simp only [affirmations_build, getItem, hresp, hd, pyLen] at hb
    cases hstr : asStr respV with
    | error e => rw [hstr] at hb; simp at hb
    | ok s =>
      rw [hstr] at hb
      cases haff : asStrList (dictGet res "affirmations" (Json.arr [])) with
      | error e => rw [haff] at hb; simp at hb
      | ok affs => rw [haff] at hb; cases hb; rfl

/-- When `product_recommendations_build` succeeds on a result whose
`retrieved_documents` is `ds`, the constructed count is `ds.length`. -/
theorem product_recommendations_build_count (res : PipelineResult)
    (r : ProductRecommendationResponse) (ds : List Json)
    (hd : dictFind "retrieved_documents" res = some (.arr ds))
    (hb : product_recommendations_build res = .ok r) :
    r.retrieved_documents_count = ds.length := by
  cases hresp : dictFind "response" res with
  | none => simp [product_recommendations_build, getItem, hresp] at hb
  | some respV =>
    simp only [product_recommendations_build, getItem, hresp, hd, pyLen] at hb
    cases hstr : asStr respV with
    | error e => rw [hstr] at hb; simp at hb
    | ok s =>
      rw [hstr] at hb
      cases hprod : asStrList (dictGet res "products" (Json.arr [])) with
      | error e => rw [hprod] at hb; simp at hb
      | ok prods => rw [hprod] at hb; cases hb; rfl

/-- When the pipeline result omits `affirmations` but has a string `response`
and a list `retrieved_documents`, `affirmations_build` succeeds with an empty
`affirmations` field. -/
theorem affirmations_build_defaults_empty (res : PipelineResult) (s : String) (ds : List Json)
    (hresp : dictFind "response" res = some (.str s))
    (haff : dictFind "affirmations" res = none)
    (hd : dictFind "retrieved_documents" res = some (.arr ds)) :
    affirmations_build res = .ok ⟨s, [], ds.length⟩ := by
  simp [affirmations_build, getItem, dictGet, hresp, haff, hd, pyLen, asStr, asStrList, asStrElems]

/-- When the pipeline result omits `products` but has a string `response`
and a list `retrieved_documents`, `product_recommendations_build` succeeds
with an empty `products` field. -/
theorem product_recommendations_build_defaults_empty (res : PipelineResult) (s : String)
    (ds : List Json) (hresp : dictFind "response" res = some (.str s))
    (hprod : dictFind "products" res = none)
    (hd : dictFind "retrieved_documents" res = some (.arr ds)) :
    product_recommendations_build res = .ok ⟨s, [], ds.length⟩ := by
  simp [product_recommendations_build, getItem, dictGet, hresp, hprod, hd, pyLen, asStr,
    asStrList, asStrElems]

/-- A result missing `response` or `retrieved_documents` makes `qa_build`
fail with a `KeyError`. -/
theorem qa_build_missing_key (res : PipelineResult)
    (h : dictFind "response" res = none ∨ dictFind "retrieved_documents" res = none) :
    ∃ k, qa_build res = .error (.keyError k) := by
  rcases h with h | h
  · exact ⟨"response", by simp [qa_build, getItem, h]⟩
  · cases hresp : dictFind "response" res with
    | none => exact ⟨"response", by simp [qa_build, getItem, hresp]⟩
    | some v => exact ⟨"retrieved_documents", by simp [qa_build, getItem, hresp, h]⟩

/-- A result missing `response` or `retrieved_documents` makes
`doctor_matching_build` fail with a `KeyError`. -/
theorem doctor_matching_build_missing_key (res : PipelineResult)
    (h : dictFind "response" res = none ∨ dictFind "retrieved_documents" res = none) :
    ∃ k, doctor_matching_build res = .error (.keyError k) := by
  rcases h with h | h
  · exact ⟨"response", by simp [doctor_matching_build, getItem, h]⟩
  · cases hresp : dictFind "response" res with
    | none => exact ⟨"response", by simp [doctor_matching_build, getItem, hresp]⟩
    | some v => exact ⟨"retrieved_documents", by simp [doctor_matching_build, getItem, hresp, h]⟩

/-- A result missing `response` or `retrieved_documents` makes
`affirmations_build` fail with a `KeyError`. -/
theorem affirmations_build_missing_key (res : PipelineResult)
    (h : dictFind "response" res = none ∨ dictFind "retrieved_documents" res = none) :
    ∃ k, affirmations_build res = .error (.keyError k) := by
  rcases h with h | h
  · exact ⟨"response", by simp [affirmations_build, getItem, h]⟩
  · cases hresp : dictFind "response" res with
    | none => exact ⟨"response", by simp [affirmations_build, getItem, hresp]⟩
    | some v => exact ⟨"retrieved_documents", by simp [affirmations_build, getItem, hresp, h]⟩

/-- A result missing `response` or `retrieved_documents` makes
`product_recommendations_build` fail with a `KeyError`. -/
theorem product_recommendations_build_missing_key (res : PipelineResult)
    (h : dictFind "response" res = none ∨ dictFind "retrieved_documents" res = none) :
    ∃ k, product_recommendations_build res = .error (.keyError k) := by
  rcases h with h | h
  · exact ⟨"response", by simp [product_recommendations_build, getItem, h]⟩
  · cases hresp : dictFind "response" res with
    | none => exact ⟨"response", by simp [product_recommendations_build, getItem, hresp]⟩
    | some v =>
      exact ⟨"retrieved_documents", by simp [product_recommendations_build, getItem, hresp, h]⟩

/-- C8 witness: a pipeline raising `HTTPException(404, "not found")` against
`POST /doctor-matching` still comes back as status 500 with the doctor
matching prefix. -/
theorem pipeline_http_exception_rereported_as_500_witness :
    (doctor_matching_endpoint (fun _ => .error (.httpExc 404 "not found")) ⟨"s"⟩).status = 500 ∧
    (doctor_matching_endpoint (fun _ => .error (.httpExc 404 "not found")) ⟨"s"⟩).detail =
      some ("Error processing doctor matching request: " ++ strOfExc (.httpExc 404 "not found")) :=
  pipeline_http_exception_rereported_as_500.2.1 (fun _ => .error (.httpExc 404 "not found"))
    ⟨"s"⟩ 404 "not found" rfl

/-- C1: for each of the four POST endpoints, if the pipeline returns a
result whose `retrieved_documents` is a sequence of length `k` and the
endpoint answers with status 200, then the success body's
`retrieved_documents_count` field is exactly `k`. -/
theorem success_count_equals_retrieved_documents_length :
    (∀ pipe req res ds, pipe (QARequest.query req) = .ok res →
      dictFind "retrieved_documents" res = some (.arr ds) →
      (qa_endpoint pipe req).status = 200 →
      (qa_endpoint pipe req).body.objLookup "retrieved_documents_count" =
        some (.num ds.length)) ∧
    (∀ pipe req res ds, pipe (DoctorMatchingRequest.symptoms req) = .ok res →
      dictFind "retrieved_documents" res = some (.arr ds) →
      (doctor_matching_endpoint pipe req).status = 200 →
      (doctor_matching_endpoint pipe req).body.objLookup "retrieved_documents_count" =
        some (.num ds.length)) ∧
    (∀ pipe req res ds, pipe (AffirmationRequest.categories req) = .ok res →
      dictFind "retrieved_documents" res = some (.arr ds) →
      (affirmations_endpoint pipe req).status = 200 →
      (affirmations_endpoint pipe req).body.objLookup "retrieved_documents_count" =
        some (.num ds.length)) ∧
    (∀ pipe req res ds, pipe (ProductRecommendationRequest.user_input req) = .ok res →
      dictFind "retrieved_documents" res = some (.arr ds) →
      (product_recommendations_endpoint pipe req).status = 200 →
      (product_recommendations_endpoint pipe req).body.objLookup "retrieved_documents_count" =
        some (.num ds.length)) := by
  refine ⟨?_, ?_, ?_, ?_⟩
  · intro pipe req res ds hp hd h200
    cases hb : qa_build res with
    | error e => simp [qa_endpoint, qa_try, hp, hb, httpErrorResponse] at h200
    | ok r =>
      have hc := qa_build_count res r ds hd hb
      simp only [qa_endpoint, qa_try, hp, hb]
      rw [← hc]
      rfl
  · intro pipe req res ds hp hd h200
    cases hb : doctor_matching_build res with
    | error e =>
      simp [doctor_matching_endpoint, doctor_matching_try, hp, hb, httpErrorResponse] at h200
    | ok r =>
      have hc := doctor_matching_build_count res r ds hd hb
      simp only [doctor_matching_endpoint, doctor_matching_try, hp, hb]
      rw [← hc]
      rfl
  · intro pipe req res ds hp hd h200
    cases hb : affirmations_build res with
    | error e =>
      simp [affirmations_endpoint, affirmations_try, hp, hb, httpErrorResponse] at h200
    | ok r =>
      have hc := affirmations_build_count res r ds hd hb
      simp only [affirmations_endpoint, affirmations_try, hp, hb]
      rw [← hc]
      rfl
  · intro pipe req res ds hp hd h200
    cases hb : product_recommendations_build res with
    | error e =>
      simp [product_recommendations_endpoint, product_recommendations_try, hp, hb,
        httpErrorResponse] at h200
    | ok r =>
      have hc := product_recommendations_build_count res r ds hd hb
      simp only [product_recommendations_endpoint, product_recommendations_try, hp, hb]
      rw [← hc]
      rfl

/-- C1 witness: the spec's own scenario — `POST /qa` with a pipeline
returning two retrieved documents answers 200 with count 2. -/
theorem success_count_equals_retrieved_documents_length_witness :
    (qa_endpoint
      (fun _ => .ok [("response", .str "It is..."),
                     ("retrieved_documents", .arr [.str "d1", .str "d2"])])
      ⟨"What is perimenopause?"⟩).body.objLookup "retrieved_documents_count" =
      some (.num 2) :=
  success_count_equals_retrieved_documents_length.1
    (fun _ => .ok [("response", .str "It is..."),
                   ("retrieved_documents", .arr [.str "d1", .str "d2"])])
    ⟨"What is perimenopause?"⟩ _ [.str "d1", .str "d2"] rfl rfl rfl

/-- C3: for `POST /affirmations` (resp. `POST /product-recommendations`), a
pipeline result with `response` and `retrieved_documents` but no
`affirmations` (resp. `products`) key succeeds with the field defaulted to
the empty sequence. -/
theorem omitted_optional_key_defaults_to_empty :
    (∀ pipe req res s ds, pipe (AffirmationRequest.categories req) = .ok res →
      dictFind "response" res = some (.str s) →
      dictFind "affirmations" res = none →
      dictFind "retrieved_documents" res = some (.arr ds) →
      affirmations_endpoint pipe req =
        ⟨200, AffirmationResponse.toJson ⟨s, [], ds.length⟩⟩ ∧
      (affirmations_endpoint pipe req).body.objLookup "affirmations" = some (.arr [])) ∧
    (∀ pipe req res s ds, pipe (ProductRecommendationRequest.user_input req) = .ok res →
      dictFind "response" res = some (.str s) →
      dictFind "products" res = none →
      dictFind "retrieved_documents" res = some (.arr ds) →
      product_recommendations_endpoint pipe req =
        ⟨200, ProductRecommendationResponse.toJson ⟨s, [], ds.length⟩⟩ ∧
      (product_recommendations_endpoint pipe req).body.objLookup "products" =
        some (.arr [])) := by
  constructor
  · intro pipe req res s ds hp hresp haff hd
    have hb := affirmations_build_defaults_empty res s ds hresp haff hd
    have he : affirmations_endpoint pipe req =
        ⟨200, AffirmationResponse.toJson ⟨s, [], ds.length⟩⟩ := by
      simp [affirmations_endpoint, affirmations_try, hp, hb]
    exact ⟨he, by rw [he]; rfl⟩
  · intro pipe req res s ds hp hresp hprod hd
    have hb := product_recommendations_build_defaults_empty res s ds hresp hprod hd
    have he : product_recommendations_endpoint pipe req =
        ⟨200, ProductRecommendationResponse.toJson ⟨s, [], ds.length⟩⟩ := by
      simp [product_recommendations_endpoint, product_recommendations_try, hp, hb]
    exact ⟨he, by rw [he]; rfl⟩

/-- C3 witness: the spec's own scenario — `POST /affirmations` with
`categories = ["confidence"]` and a pipeline result lacking the
`affirmations` key answers with empty `affirmations` and count 1. -/
theorem omitted_optional_key_defaults_to_empty_witness :
    affirmations_endpoint
      (fun _ => .ok [("response", .str "Here are some affirmations"),
                     ("retrieved_documents", .arr [.str "d1"])])
      ⟨["confidence"]⟩ =
      ⟨200, AffirmationResponse.toJson ⟨"Here are some affirmations", [], 1⟩⟩ ∧
    (affirmations_endpoint
      (fun _ => .ok [("response", .str "Here are some affirmations"),
                     ("retrieved_documents", .arr [.str "d1"])])
      ⟨["confidence"]⟩).body.objLookup "affirmations" = some (.arr []) :=
  omitted_optional_key_defaults_to_empty.1
    (fun _ => .ok [("response", .str "Here are some affirmations"),
                   ("retrieved_documents", .arr [.str "d1"])])
    ⟨["confidence"]⟩ _ "Here are some affirmations" [.str "d1"] rfl rfl rfl rfl

/-- C4: for each of the four POST endpoints, a pipeline result missing the
expected `response` or `retrieved_documents` key is handled as a pipeline
fault: the endpoint answers 500 whose detail is the operation prefix
followed by the description of a `KeyError`, not an unhandled crash. -/
theorem missing_expected_key_reported_as_500 :
    (∀ pipe req res, pipe (QARequest.query req) = .ok res →
      dictFind "response" res = none ∨ dictFind "retrieved_documents" res = none →
      (qa_endpoint pipe req).status = 500 ∧
      ∃ k, (qa_endpoint pipe req).detail =
        some ("Error processing Q&A request: " ++ strOfExc (.keyError k))) ∧
    (∀ pipe req res, pipe (DoctorMatchingRequest.symptoms req) = .ok res →
      dictFind "response" res = none ∨ dictFind "retrieved_documents" res = none →
      (doctor_matching_endpoint pipe req).status = 500 ∧
      ∃ k, (doctor_matching_endpoint pipe req).detail =
        some ("Error processing doctor matching request: " ++ strOfExc (.keyError k))) ∧
    (∀ pipe req res, pipe (AffirmationRequest.categories req) = .ok res →
      dictFind "response" res = none ∨ dictFind "retrieved_documents" res = none →
      (affirmations_endpoint pipe req).status = 500 ∧
      ∃ k, (affirmations_endpoint pipe req).detail =
        some ("Error processing affirmation request: " ++ strOfExc (.keyError k))) ∧
    (∀ pipe req res, pipe (ProductRecommendationRequest.user_input req) = .ok res →
      dictFind "response" res = none ∨ dictFind "retrieved_documents" res = none →
      (product_recommendations_endpoint pipe req).status = 500 ∧
      ∃ k, (product_recommendations_endpoint pipe req).detail =
        some ("Error processing product recommendation request: " ++ strOfExc (.keyError k))) := by
  refine ⟨?_, ?_, ?_, ?_⟩
  · intro pipe req res hp hmiss
    obtain ⟨k, hk⟩ := qa_build_missing_key res hmiss
    have he : qa_endpoint pipe req =
        httpErrorResponse 500 ("Error processing Q&A request: " ++ strOfExc (.keyError k)) := by
      simp [qa_endpoint, qa_try, hp, hk]
    exact ⟨by rw [he]; rfl, k, by rw [he, detail_httpErrorResponse]⟩
  · intro pipe req res hp hmiss
    obtain ⟨k, hk⟩ := doctor_matching_build_missing_key res hmiss
    have he : doctor_matching_endpoint pipe req =
        httpErrorResponse 500
          ("Error processing doctor matching request: " ++ strOfExc (.keyError k)) := by
      simp [doctor_matching_endpoint, doctor_matching_try, hp, hk]
    exact ⟨by rw [he]; rfl, k, by rw [he, detail_httpErrorResponse]⟩
  · intro pipe req res hp hmiss
    obtain ⟨k, hk⟩ := affirmations_build_missing_key res hmiss
    have he : affirmations_endpoint pipe req =
        httpErrorResponse 500
          ("Error processing affirmation request: " ++ strOfExc (.keyError k)) := by
      simp [affirmations_endpoint, affirmations_try, hp, hk]
    exact ⟨by rw [he]; rfl, k, by rw [he, detail_httpErrorResponse]⟩
  · intro pipe req res hp hmiss
    obtain ⟨k, hk⟩ := product_recommendations_build_missing_key res hmiss
    have he : product_recommendations_endpoint pipe req =
        httpErrorResponse 500
          ("Error processing product recommendation request: " ++ strOfExc (.keyError k)) := by
      simp [product_recommendations_endpoint, product_recommendations_try, hp, hk]
    exact ⟨by rw [he]; rfl, k, by rw [he, detail_httpErrorResponse]⟩

/-- C4 witness: `POST /qa` with a pipeline result that lacks
`retrieved_documents` answers 500 with a prefixed `KeyError` detail. -/
theorem missing_expected_key_reported_as_500_witness :
    (qa_endpoint (fun _ => .ok [("response", .str "hi")]) ⟨"q"⟩).status = 500 ∧
    ∃ k, (qa_endpoint (fun _ => .ok [("response", .str "hi")]) ⟨"q"⟩).detail =
      some ("Error processing Q&A request: " ++ strOfExc (.keyError k)) :=
  missing_expected_key_reported_as_500.1 (fun _ => .ok [("response", .str "hi")]) ⟨"q"⟩
    [("response", .str "hi")] rfl (Or.inr rfl)

/-- Appending a binding for a fresh key at the end of an association list
leaves every other lookup unchanged. -/
theorem dictFind_append_single (k2 k : String) (v : Json) (res : List (String × Json))
    (h : k2 ≠ k) : dictFind k2 (res ++ [(k, v)]) = dictFind k2 res := by
  induction res with
  | nil => simp [dictFind, Ne.symm h]
  | cons p rest ih =>
    cases p with
    | mk a b =>
      simp only [List.cons_append, dictFind]
      split <;> simp [ih]

/-- `getItem` is unchanged by an extra binding for a different key. -/
theorem getItem_append_single (k2 k : String) (v : Json) (res : PipelineResult)
    (h : k2 ≠ k) : getItem (res ++ [(k, v)]) k2 = getItem res k2 := by
  simp [getItem, dictFind_append_single k2 k v res h]

/-- `dictGet` is unchanged by an extra binding for a different key. -/
theorem dictGet_append_single (k2 k : String) (v d : Json) (res : PipelineResult)
    (h : k2 ≠ k) : dictGet (res ++ [(k, v)]) k2 d = dictGet res k2 d := by
  simp [dictGet, dictFind_append_single k2 k v res h]

/-- C9: each POST endpoint's 200 body carries exactly the fields its
response schema declares, in declaration order; and each response
construction reads only its schema's keys from the pipeline result, so an
extra key appended to the result changes nothing.  The handlers are pure
functions of the result, so the result mapping is never mutated. -/
theorem response_fields_exact_and_extra_keys_ignored :
    (∀ pipe req, (qa_endpoint pipe req).status = 200 →
      (qa_endpoint pipe req).body.objKeys = ["response", "retrieved_documents_count"]) ∧
    (∀ pipe req, (doctor_matching_endpoint pipe req).status = 200 →
      (doctor_matching_endpoint pipe req).body.objKeys =
        ["response", "retrieved_documents_count"]) ∧
    (∀ pipe req, (affirmations_endpoint pipe req).status = 200 →
      (affirmations_endpoint pipe req).body.objKeys =
        ["response", "affirmations", "retrieved_documents_count"]) ∧
    (∀ pipe req, (product_recommendations_endpoint pipe req).status = 200 →
      (product_recommendations_endpoint pipe req).body.objKeys =
        ["response", "products", "retrieved_documents_count"]) ∧
    (∀ res k v, k ≠ "response" → k ≠ "retrieved_documents" →
      qa_build (res ++ [(k, v)]) = qa_build res ∧
      doctor_matching_build (res ++ [(k, v)]) = doctor_matching_build res) ∧
    (∀ res k v, k ≠ "response" → k ≠ "retrieved_documents" → k ≠ "affirmations" →
      affirmations_build (res ++ [(k, v)]) = affirmations_build res) ∧
    (∀ res k v, k ≠ "response" → k ≠ "retrieved_documents" → k ≠ "products" →
      product_recommendations_build (res ++ [(k, v)]) = product_recommendations_build res) := by
  refine ⟨?_, ?_, ?_, ?_, ?_, ?_, ?_⟩
  · intro pipe req h200
    cases ht : qa_try pipe req.query with
    | error e => simp [qa_endpoint, ht, httpErrorResponse] at h200
    | ok r => simp [qa_endpoint, ht, QAResponse.toJson, Json.objKeys]
  · intro pipe req h200
    cases ht : doctor_matching_try pipe req.symptoms with
    | error e => simp [doctor_matching_endpoint, ht, httpErrorResponse] at h200
    | ok r => simp [doctor_matching_endpoint, ht, DoctorMatchingResponse.toJson, Json.objKeys]
  · intro pipe req h200
    cases ht : affirmations_try pipe req.categories with
    | error e => simp [affirmations_endpoint, ht, httpErrorResponse] at h200
    | ok r => simp [affirmations_endpoint, ht, AffirmationResponse.toJson, Json.objKeys]
  · intro pipe req h200
    cases ht : product_recommendations_try pipe req.user_input with
    | error e => simp [product_recommendations_endpoint, ht, httpErrorResponse] at h200
    | ok r =>
      simp [product_recommendations_endpoint, ht, ProductRecommendationResponse.toJson,
        Json.objKeys]
  · intro res k v h1 h2
    constructor
    · unfold qa_build
      rw [getItem_append_single "response" k v res (Ne.symm h1),
        getItem_append_single "retrieved_documents" k v res (Ne.symm h2)]
    · unfold doctor_matching_build
      rw [getItem_append_single "response" k v res (Ne.symm h1),
        getItem_append_single "retrieved_documents" k v res (Ne.symm h2)]
  · intro res k v h1 h2 h3
    unfold affirmations_build
    rw [getItem_append_single "response" k v res (Ne.symm h1),
      getItem_append_single "retrieved_documents" k v res (Ne.symm h2),
      dictGet_append_single "affirmations" k v (.arr []) res (Ne.symm h3)]
  · intro res k v h1 h2 h3
    unfold product_recommendations_build
    rw [getItem_append_single "response" k v res (Ne.symm h1),
      getItem_append_single "retrieved_documents" k v res (Ne.symm h2),
      dictGet_append_single "products" k v (.arr []) res (Ne.symm h3)]

/-- C9 witness: on a concrete 200 answer the `/qa` body has exactly the two
schema fields, and appending an extra key `extra` to a concrete pipeline
result leaves `qa_build` unchanged. -/
theorem response_fields_exact_and_extra_keys_ignored_witness :
    ((qa_endpoint
        (fun _ => .ok [("response", .str "ok"), ("retrieved_documents", .arr [])])
        ⟨"q"⟩).body.objKeys = ["response", "retrieved_documents_count"]) ∧
    qa_build ([("response", .str "ok"), ("retrieved_documents", .arr [])] ++
        [("extra", .num 7)]) =
      qa_build [("response", .str "ok"), ("retrieved_documents", .arr [])] :=
  ⟨response_fields_exact_and_extra_keys_ignored.1
      (fun _ => .ok [("response", .str "ok"), ("retrieved_documents", .arr [])]) ⟨"q"⟩ rfl,
    (response_fields_exact_and_extra_keys_ignored.2.2.2.2.1
      [("response", .str "ok"), ("retrieved_documents", .arr [])] "extra" (.num 7)
      (by decide) (by decide)).1⟩

/-- C5: for each of the four POST routes, a body that fails structural
schema validation is answered with HTTP 422 (a 4xx), and the answer is the
same whatever the pipeline function is — so the pipeline is never consulted
and no 500 pipeline-fault response can arise from a validation failure. -/
theorem invalid_body_rejected_before_pipeline :
    (∀ pipe body e, validate_qa_request body = .error e →
      qa_route pipe body = httpErrorResponse 422 (strOfExc e) ∧
      (qa_route pipe body).status = 422 ∧
      ∀ pipe2, qa_route pipe2 body = qa_route pipe body) ∧
    (∀ pipe body e, validate_doctor_matching_request body = .error e →
      doctor_matching_route pipe body = httpErrorResponse 422 (strOfExc e) ∧
      (doctor_matching_route pipe body).status = 422 ∧
      ∀ pipe2, doctor_matching_route pipe2 body = doctor_matching_route pipe body) ∧
    (∀ pipe body e, validate_affirmation_request body = .error e →
      affirmations_route pipe body = httpErrorResponse 422 (strOfExc e) ∧
      (affirmations_route pipe body).status = 422 ∧
      ∀ pipe2, affirmations_route pipe2 body = affirmations_route pipe body) ∧
    (∀ pipe body e, validate_product_recommendation_request body = .error e →
      product_recommendations_route pipe body = httpErrorResponse 422 (strOfExc e) ∧
      (product_recommendations_route pipe body).status = 422 ∧
      ∀ pipe2, product_recommendations_route pipe2 body = product_recommendations_route pipe body) := by
  refine ⟨?_, ?_, ?_, ?_⟩ <;>
  · intro pipe body e h
    refine ⟨?_, ?_, ?_⟩ <;>
      simp [qa_route, doctor_matching_route, affirmations_route,
        product_recommendations_route, h, httpErrorResponse]

/-- C5 witness: the empty JSON object is missing the required `query` field,
so `POST /qa` answers 422 identically for two different pipelines. -/
theorem invalid_body_rejected_before_pipeline_witness :
    qa_route (fun _ => .ok []) (.obj []) =
      httpErrorResponse 422 (strOfExc (.validationError "query: field required")) ∧
    (qa_route (fun _ => .ok []) (.obj [])).status = 422 ∧
    ∀ pipe2, qa_route pipe2 (.obj []) = qa_route (fun _ => .ok []) (.obj []) :=
  invalid_body_rejected_before_pipeline.1 (fun _ => .ok []) (.obj [])
    (.validationError "query: field required") rfl

/-- C10: each POST route is a deterministic function of the validated body
and of the pipeline's behaviour on the validated input: two pipelines that
agree on that one input (same result mapping or same raised fault) give
identical HTTP responses. -/
theorem route_deterministic_in_validated_input :
    (∀ pipe pipe2 body req, validate_qa_request body = .ok req →
      pipe (QARequest.query req) = pipe2 (QARequest.query req) →
      qa_route pipe body = qa_route pipe2 body) ∧
    (∀ pipe pipe2 body req, validate_doctor_matching_request body = .ok req →
      pipe (DoctorMatchingRequest.symptoms req) = pipe2 (DoctorMatchingRequest.symptoms req) →
      doctor_matching_route pipe body = doctor_matching_route pipe2 body) ∧
    (∀ pipe pipe2 body req, validate_affirmation_request body = .ok req →
      pipe (AffirmationRequest.categories req) = pipe2 (AffirmationRequest.categories req) →
      affirmations_route pipe body = affirmations_route pipe2 body) ∧
    (∀ pipe pipe2 body req, validate_product_recommendation_request body = .ok req →
      pipe (ProductRecommendationRequest.user_input req) =
        pipe2 (ProductRecommendationRequest.user_input req) →
      product_recommendations_route pipe body = product_recommendations_route pipe2 body) := by
  refine ⟨?_, ?_, ?_, ?_⟩
  · intro pipe pipe2 body req h hpp
    have he : qa_endpoint pipe req = qa_endpoint pipe2 req := by
      unfold qa_endpoint qa_try
      rw [hpp]
    simp [qa_route, h, he]
  · intro pipe pipe2 body req h hpp
    have he : doctor_matching_endpoint pipe req = doctor_matching_endpoint pipe2 req := by
      unfold doctor_matching_endpoint doctor_matching_try
      rw [hpp]
    simp [doctor_matching_route, h, he]
  · intro pipe pipe2 body req h hpp
    have he : affirmations_endpoint pipe req = affirmations_endpoint pipe2 req := by
      unfold affirmations_endpoint affirmations_try
      rw [hpp]
    simp [affirmations_route, h, he]
  · intro pipe pipe2 body req h hpp
    have he : product_recommendations_endpoint pipe req =
        product_recommendations_endpoint pipe2 req := by
      unfold product_recommendations_endpoint product_recommendations_try
      rw [hpp]
    simp [product_recommendations_route, h, he]

/-- C10 witness: two pipelines that agree on the validated query `"q"` give
the same `/qa` response for the body `{"query": "q"}`. -/
theorem route_deterministic_in_validated_input_witness :
    qa_route (fun _ => .ok [("response", .str "a"), ("retrieved_documents", .arr [])])
        (.obj [("query", .str "q")]) =
      qa_route (fun s => if s = "q" then
          .ok [("response", .str "a"), ("retrieved_documents", .arr [])]
        else .error (.other "different elsewhere"))
        (.obj [("query", .str "q")]) :=
  route_deterministic_in_validated_input.1
    (fun _ => .ok [("response", .str "a"), ("retrieved_documents", .arr [])])
    (fun s => if s = "q" then
        .ok [("response", .str "a"), ("retrieved_documents", .arr [])]
      else .error (.other "different elsewhere"))
    (.obj [("query", .str "q")]) ⟨"q"⟩ rfl rfl

end Empress



